import Mathlib

/-!
Verification of the bootstrap-provisioner specification of
`example-deployment-cdk` against its source.

The repository's only executable logic is the EC2 user-data shell script
embedded as a Python triple-quoted string in
`example_deployment_cdk/example_deployment_cdk_stack.py` (the
`ec2.UserData.custom(...)` argument).  We embed that script here line for
line, byte for byte, and give a small-step model of the fragment of bash
the script uses: sequential simple commands, `#` comments, blank lines,
and a single `cat << EOF > target` here-document redirection.  All claims
are settled against this embedding.
-/

/-! ## Character-level string helpers (structural, kernel-reducible) -/

/-- Whitespace test used by shell word splitting (space or tab). -/
def wsp (c : Char) : Bool := c = ' ' || c = '\t'

/-- Drop leading whitespace, as bash does before reading a command word. -/
def trimL (s : String) : String := (s.toList.dropWhile wsp).asString

/-- Drop leading and trailing whitespace. -/
def trimBoth (s : String) : String :=
  ((s.toList.dropWhile wsp).reverse.dropWhile wsp).reverse.asString

/-- Does `s` start with the string `pre`? -/
def startsW (pre s : String) : Bool := pre.toList.isPrefixOf s.toList

/-- Does `s` end with the string `suf`? -/
def endsW (suf s : String) : Bool := suf.toList.reverse.isPrefixOf s.toList.reverse

/-- Drop the first `n` characters of `s`. -/
def dropChars (n : Nat) (s : String) : String := (s.toList.drop n).asString

/-- Drop the last `n` characters of `s`. -/
def dropLastChars (n : Nat) (s : String) : String :=
  (s.toList.reverse.drop n).reverse.asString

/-- Split accumulator loop for `splitCh`. -/
def splitChAux (c : Char) : List Char → List Char → List String
  | [], acc => [acc.reverse.asString]
  | x :: xs, acc =>
    if x = c then acc.reverse.asString :: splitChAux c xs []
    else splitChAux c xs (x :: acc)

/-- Split a string on a separator character ("a=b=c" on '=' gives [a, b, c]). -/
def splitCh (c : Char) (s : String) : List String := splitChAux c s.toList []

/-- Rejoin pieces with '=' between them (inverse of `splitCh` on '='). -/
def joinEq : List String → String
  | [] => ""
  | [x] => x
  | x :: xs => x ++ "=" ++ joinEq xs

/-- Is `needle` a contiguous substring of `hay` (as character lists)? -/
def hasSubAux (needle : List Char) : List Char → Bool
  | [] => needle.isEmpty
  | c :: cs => needle.isPrefixOf (c :: cs) || hasSubAux needle cs

/-- Is the string `needle` a contiguous substring of `s`? -/
def hasSub (needle s : String) : Bool := hasSubAux needle.toList s.toList

/-- Index of the first occurrence of `x` (length of the list if absent). -/
def firstIdx (x : String) : List String → Nat
  | [] => 0
  | y :: ys => if y = x then 0 else firstIdx x ys + 1

/-! ## The embedded user-data script, line for line

Exact lines of the string passed to `ec2.UserData.custom` in
`example_deployment_cdk_stack.py` (lines 121-156 of the source file),
including the 16-space indentation that every non-blank line carries
because the Python string literal is indented, and the final 12-space
fragment before the closing quotes. -/

def userDataLines : List String :=
  [ "",
    "                #!/bin/bash",
    "                yum update -y",
    "                amazon-linux-extras enable postgresql14",
    "                yum install -y postgresql",
    "                yum install -y python3 python3-pip git",
    "                amazon-linux-extras install -y nginx1",
    "                ",
    "",
    "                # Update libpq",
    "                #yum install -y https://download.postgresql.org/pub/repos/yum/reporpms/EL-7-x86_64/pgdg-redhat-repo-latest.noarch.rpm",
    "                #yum install -y postgresql14-libs",
    "",
    "                # Create uvicorn.service file",
    "                cat << EOF > /etc/systemd/system/uvicorn.service",
    "                [Unit]",
    "                Description=uvicorn daemon",
    "                After=network.target",
    "",
    "                [Service]",
    "                User=ec2-user",
    "                Group=ec2-user",
    "                WorkingDirectory=/home/ec2-user/app",
    "                Environment=\"PYTHONPATH=/home/ec2-user/app\"",
    "                ExecStart=/home/ec2-user/app/venv/bin/uvicorn api_project.asgi:application --host 0.0.0.0 --port 8000",
    "",
    "                [Install]",
    "                WantedBy=multi-user.target",
    "                EOF",
    "",
    "                # Reload systemd to recognize the new service",
    "                systemctl daemon-reload",
    "",
    "                # Enable the service to start on boot",
    "                systemctl enable uvicorn.service",
    "            " ]

/-! ## Bash execution model

The script uses only: blank lines, `#` comments, simple commands, and one
`cat << EOF > target` here-document.  Bash semantics for `<<` (not `<<-`):
the here-document body runs up to the first line that is EXACTLY the
delimiter word — leading whitespace is NOT stripped, so an indented
delimiter line does not terminate the body; if no such line exists the
body extends to the end of the script. -/

/-- The result of running a script: the simple commands executed, in
order (whitespace-trimmed), and the files written by redirections, as
(path, content lines). -/
structure RunResult where
  executed : List String
  files : List (String × List String)
deriving DecidableEq

/-- Interpreter mode: reading commands, or inside a here-document body
collecting lines (target path, reversed accumulated lines). -/
inductive BashMode
  | cmd : BashMode
  | hdoc : String → List String → BashMode

/-- The redirection form the script uses. -/
def redirMark : String := "cat << EOF > "

/-- One pass over the script lines.  In command mode, blank lines and
`#` lines are skipped, a `cat << EOF > target` line enters here-document
mode, and any other line is recorded as an executed command.  In
here-document mode, lines accumulate into the file body until a line that
is exactly "EOF"; if the script ends first, the body is everything that
was accumulated (bash: here-document delimited by end-of-file). -/
def runAux : BashMode → List String → RunResult
  | .cmd, [] => ⟨[], []⟩
  | .cmd, l :: rest =>
    let t := trimL l
    if t = "" then runAux .cmd rest
    else if startsW "#" t then runAux .cmd rest
    else if startsW redirMark t then
      let r := runAux (.hdoc (dropChars 13 t) []) rest
      ⟨t :: r.executed, r.files⟩
    else
      let r := runAux .cmd rest
      ⟨t :: r.executed, r.files⟩
  | .hdoc tgt acc, [] => ⟨[], [(tgt, acc.reverse)]⟩
  | .hdoc tgt acc, l :: rest =>
    if l = "EOF" then
      let r := runAux .cmd rest
      ⟨r.executed, (tgt, acc.reverse) :: r.files⟩
    else
      runAux (.hdoc tgt (l :: acc)) rest

/-- Run the script from command mode. -/
def runScript (lines : List String) : RunResult := runAux .cmd lines

/-! ## Data model

`ServiceUnitSpec` from the spec's data model, with the fields the source
template actually materializes.  The source writes exactly one
`Environment=` assignment (the module search path), so the environment
mapping is embedded as a single variable/value pair. -/

structure ServiceUnitSpec where
  name : String
  description : String
  working_directory : String
  run_user : String
  run_group : String
  env_var : String
  env_value : String
  exec_command : String
  after_target : String
deriving DecidableEq

/-- The 16-space indentation every non-blank line of the embedded script
carries (the Python string literal is indented inside the method body). -/
def ind16 : String := "                "

/-- Service-unit materialization: the unit-file body the script's
here-document template produces for a spec, line for line, exactly as the
source writes it — each line carrying the template's 16-space
indentation. -/
def materializeUnit (s : ServiceUnitSpec) : List String :=
  [ ind16 ++ "[Unit]",
    ind16 ++ "Description=" ++ s.description,
    ind16 ++ "After=" ++ s.after_target,
    "",
    ind16 ++ "[Service]",
    ind16 ++ "User=" ++ s.run_user,
    ind16 ++ "Group=" ++ s.run_group,
    ind16 ++ "WorkingDirectory=" ++ s.working_directory,
    ind16 ++ "Environment=\"" ++ s.env_var ++ "=" ++ s.env_value ++ "\"",
    ind16 ++ "ExecStart=" ++ s.exec_command,
    "",
    ind16 ++ "[Install]",
    ind16 ++ "WantedBy=multi-user.target" ]

/-- The spec instance the source script materializes (its concrete field
values read off the here-document body in the source). -/
def uvicornSpec : ServiceUnitSpec :=
  { name := "uvicorn",
    description := "uvicorn daemon",
    working_directory := "/home/ec2-user/app",
    run_user := "ec2-user",
    run_group := "ec2-user",
    env_var := "PYTHONPATH",
    env_value := "/home/ec2-user/app",
    exec_command := "/home/ec2-user/app/venv/bin/uvicorn api_project.asgi:application --host 0.0.0.0 --port 8000",
    after_target := "network.target" }

/-- The concrete spec instance named by the specification's testable
property (name "app", working directory "/srv/app", the serve command);
fields the property leaves open take the source template's shape. -/
def appSpec : ServiceUnitSpec :=
  { name := "app",
    description := "app daemon",
    working_directory := "/srv/app",
    run_user := "app",
    run_group := "app",
    env_var := "PYTHONPATH",
    env_value := "/srv/app",
    exec_command := "/srv/app/venv/bin/serve --host 0.0.0.0 --port 8000",
    after_target := "network.target" }

/-- The well-known unit-file path the script redirects into. -/
def unitFilePath : String := "/etc/systemd/system/uvicorn.service"

/-- The content (lines) of the unit file the run leaves at
`unitFilePath`: the body of the script's single here-document write. -/
def unitFileLines : List String :=
  ((runScript userDataLines).files.head?.map Prod.snd).getD []

/-! ## Failure and exit model

The script contains no `set -e`, no `trap`, no `&&`/`||` chains and no
`exit` statement, so bash runs every command in sequence regardless of
earlier failures, and the script's exit status is the status of its last
command.  `execSeq` runs a command list under an outcome assignment
(`fails c = true` means command `c` fails) and records the per-command
trace; `exitOk` is the script's overall exit status. -/

def execSeq (fails : String → Bool) : List String → List (String × Bool)
  | [] => []
  | c :: cs => (c, !(fails c)) :: execSeq fails cs

/-- The script's exit status: that of the last command (an empty script
exits 0). -/
def exitOk (trace : List (String × Bool)) : Bool :=
  (trace.getLast?.map Prod.snd).getD true

/-! ## Package-installation step -/

/-- Package names named by an install command of the script (`yum
install -y ...` or `amazon-linux-extras install -y ...`). -/
def pkgInstallArgs (c : String) : List String :=
  if startsW "yum install -y " c then splitCh ' ' (dropChars 15 c)
  else if startsW "amazon-linux-extras install -y " c then splitCh ' ' (dropChars 31 c)
  else []

/-- All package names the run's install commands name, in order. -/
def installedPkgNames : List String :=
  ((runScript userDataLines).executed.map pkgInstallArgs).flatten

/-- Effect of installing one package on the host's installed-package
state: a no-op when the package is already present. -/
def installPkg (st : List String) (p : String) : List String :=
  if p ∈ st then st else st ++ [p]

/-- Effect of the package-installation step on the host state: install
each named package in order. -/
def installStep (st : List String) : List String :=
  installedPkgNames.foldl installPkg st

/-- The package-installation step as run by the script.  The step invokes
the package manager with its non-interactive flag (`-y`, visible in the
source's install commands), whose contract is to exit successfully and
change nothing when the requested packages are already installed; its
effect on the installed-package state is embedded as `installPkg` per
package, and `none` never arises for the script's fixed package set. -/
def installStepRun (st : List String) : Option (List String) :=
  some (installStep st)

/-! ## Unit-file parsing (for the round-trip property) -/

/-- Modelled from the spec: the repository contains no unit-file reader,
but the specification's output contract describes the unit file as the
"key=value-under-section format: sections [Unit] (Description, After),
[Service] (User, Group, WorkingDirectory, Environment, ExecStart),
[Install] (WantedBy)" and states the round-trip testable property.  This
reader follows those words: each line is whitespace-trimmed; blank and
`#`-comment lines are skipped; a `[Name]` line opens a section; a
`Key=Value` line records an entry under the current section; any other
line is a syntax error. -/
def parseEntries : List String → String → Option (List (String × String × String))
  | [], _ => some []
  | l :: rest, sec =>
    let t := trimBoth l
    if t = "" then parseEntries rest sec
    else if startsW "#" t then parseEntries rest sec
    else if startsW "[" t && endsW "]" t then
      parseEntries rest (dropLastChars 1 (dropChars 1 t))
    else
      match splitCh '=' t with
      | k :: v :: vs => (parseEntries rest sec).map (fun es => (sec, k, joinEq (v :: vs)) :: es)
      | _ => none

/-- First value recorded for a (section, key) pair. -/
def lookupE (es : List (String × String × String)) (sec key : String) : Option String :=
  match es with
  | [] => none
  | (s, k, v) :: rest =>
    if s = sec && k = key then some v else lookupE rest sec key

/-- Strip one level of surrounding double quotes, as the supervisor does
for Environment= assignments. -/
def unquote (s : String) : String :=
  if startsW "\"" s && endsW "\"" s then dropLastChars 1 (dropChars 1 s) else s

/-- Unit name carried by a unit-file path: the last path component with
the ".service" suffix removed ("/etc/systemd/system/uvicorn.service"
names the unit "uvicorn"). -/
def nameOfPath (p : String) : String :=
  let last := ((splitCh '/' p).getLast?).getD ""
  if endsW ".service" last then dropLastChars 8 last else last

/-- Modelled from the spec: parse a materialized unit file (its path and
content lines) back into a `ServiceUnitSpec`, as the round-trip testable
property requires.  Fails if any line is not valid unit-file syntax or a
required field is missing. -/
def parseUnitFile (path : String) (lines : List String) : Option ServiceUnitSpec :=
  match parseEntries lines "" with
  | none => none
  | some es =>
    match lookupE es "Unit" "Description", lookupE es "Unit" "After",
          lookupE es "Service" "User", lookupE es "Service" "Group",
          lookupE es "Service" "WorkingDirectory", lookupE es "Service" "Environment",
          lookupE es "Service" "ExecStart", lookupE es "Install" "WantedBy" with
    | some d, some a, some u, some g, some w, some e, some x, some _ =>
      match splitCh '=' (unquote e) with
      | ev :: v :: vs => some ⟨nameOfPath path, d, w, u, g, ev, joinEq (v :: vs), x, a⟩
      | _ => none
    | _, _, _, _, _, _, _, _ => none

/-- First whitespace-separated token of a spec's exec command: the
executable path the unit's ExecStart invokes. -/
def execBinary (s : ServiceUnitSpec) : String :=
  (s.exec_command.toList.takeWhile (fun c => !(wsp c))).asString

/-- Does the run materialize the unit file by write-temp-then-rename:
some written path, different from the final path, is later moved onto the
final path? -/
def atomicTempRenameB (r : RunResult) (final : String) : Bool :=
  (r.files.map Prod.fst).any
    (fun tmp => tmp != final && r.executed.contains ("mv " ++ tmp ++ " " ++ final))

/-! ## Helper lemmas -/

/-- Running a command list under any outcome assignment executes every
command: bash without errexit does not stop at a failure. -/
theorem execSeq_fst (fails : String → Bool) :
    ∀ l : List String, (execSeq fails l).map Prod.fst = l := by
  intro l
  induction l with
  | nil => rfl
  | cons c cs ih => simp [execSeq, ih]

/-- Installing a package puts it in the state. -/
theorem mem_installPkg_self (st : List String) (p : String) : p ∈ installPkg st p := by
  unfold installPkg
  by_cases h : p ∈ st
  · simp [h]
  · simp [h]

/-- Installing a package keeps every package already in the state. -/
theorem mem_installPkg_of (st : List String) (p q : String) (h : q ∈ st) :
    q ∈ installPkg st p := by
  unfold installPkg
  by_cases hp : p ∈ st
  · simpa [hp]
  · simp [hp, h]

/-- After folding installs over a package list, every package of the list
and every package of the initial state is installed. -/
theorem mem_foldl_installPkg (ps : List String) :
    ∀ st q, (q ∈ st ∨ q ∈ ps) → q ∈ ps.foldl installPkg st := by
  induction ps with
  | nil =>
    intro st q h
    rcases h with h | h
    · simpa using h
    · simp at h
  | cons p ps ih =>
    intro st q h
    simp only [List.foldl_cons]
    rcases h with hst | hps
    · exact ih _ q (Or.inl (mem_installPkg_of st p q hst))
    · rcases List.mem_cons.mp hps with rfl | hmem
      · exact ih _ q (Or.inl (mem_installPkg_self st q))
      · exact ih _ q (Or.inr hmem)

/-- Folding installs over packages already present changes nothing. -/
theorem foldl_installPkg_noop (ps : List String) :
    ∀ st, (∀ p ∈ ps, p ∈ st) → ps.foldl installPkg st = st := by
  induction ps with
  | nil => intro st _; rfl
  | cons p ps ih =>
    intro st h
    have hp : p ∈ st := h p (by simp)
    simp only [List.foldl_cons, installPkg, if_pos hp]
    exact ih st (fun q hq => h q (by simp [hq]))

/-! ## Claim theorems -/

/-- C1 (counterexample): at the claim's own concrete input — the spec
with name "app", working directory "/srv/app" and exec command
"/srv/app/venv/bin/serve --host 0.0.0.0 --port 8000" — the materialized
unit contains no line that is exactly "ExecStart=" followed by the
command (nor one that is exactly "WorkingDirectory=" followed by the
directory): every template line carries the 16-space indentation, so the
ExecStart line does not equal the command string character for
character. -/
theorem C1_counterexample :
    ((materializeUnit appSpec).contains ("ExecStart=" ++ appSpec.exec_command) = false) ∧
    ((materializeUnit appSpec).contains (ind16 ++ "ExecStart=" ++ appSpec.exec_command) = true) ∧
    ((materializeUnit appSpec).contains ("WorkingDirectory=" ++ appSpec.working_directory) = false) ∧
    ((materializeUnit appSpec).contains (ind16 ++ "WorkingDirectory=" ++ appSpec.working_directory) = true) := by
  refine ⟨by decide, by decide, by decide, by decide⟩

/-- C1 (amended): for every ServiceUnitSpec, the materialized unit's
ExecStart line is the template's 16-space indentation followed by
"ExecStart=" followed exactly by the spec's exec_command, and its
WorkingDirectory line is the indentation followed by "WorkingDirectory="
followed exactly by the spec's working_directory; stripping the leading
whitespace of either line of the claim's concrete "app" instance yields
the key=value form with the value character for character; and the unit
file the source run actually writes carries that ExecStart line for its
own spec at the same position. -/
theorem C1_amended :
    (∀ s : ServiceUnitSpec,
      (materializeUnit s)[9]? = some (ind16 ++ "ExecStart=" ++ s.exec_command) ∧
      (materializeUnit s)[7]? = some (ind16 ++ "WorkingDirectory=" ++ s.working_directory)) ∧
    (trimL (ind16 ++ "ExecStart=" ++ appSpec.exec_command) = "ExecStart=" ++ appSpec.exec_command) ∧
    (trimL (ind16 ++ "WorkingDirectory=" ++ appSpec.working_directory)
      = "WorkingDirectory=" ++ appSpec.working_directory) ∧
    (unitFileLines[9]? = some (ind16 ++ "ExecStart=" ++ uvicornSpec.exec_command)) := by
  refine ⟨fun s => ⟨rfl, rfl⟩, by decide, by decide, by decide⟩

/-- C2 (counterexample): with a failure injected at the
package-installation step ("yum install -y postgresql" fails), the run
does not abort there — the service-unit write still executes (the cat
redirection appears in the trace with a successful outcome after the
failed step) — and the script's overall exit status is still 0 because it
is the status of the last command, not of the whole run. -/
theorem C2_counterexample :
    ((execSeq (fun c => c = "yum install -y postgresql") (runScript userDataLines).executed).contains
      ("yum install -y postgresql", false) = true) ∧
    ((execSeq (fun c => c = "yum install -y postgresql") (runScript userDataLines).executed).contains
      ("cat << EOF > /etc/systemd/system/uvicorn.service", true) = true) ∧
    (exitOk (execSeq (fun c => c = "yum install -y postgresql") (runScript userDataLines).executed) = true) := by
  refine ⟨by decide, by decide, by decide⟩

/-- C2 (amended): the script carries no errexit or failure handling — no
line sets a shell option, chains commands with the and/or operators, or
exits explicitly — so under every outcome assignment all steps execute in
order regardless of failures, and the script's exit status is exactly the
status of its last executed command (the unit-file write), not a summary
of all steps. -/
theorem C2_amended :
    (userDataLines.all (fun l => !(startsW "set " (trimL l))) = true) ∧
    (userDataLines.all (fun l => !(hasSub "&&" l) && !(hasSub "||" l) && !(hasSub "exit " l)) = true) ∧
    (∀ fails : String → Bool,
      ((execSeq fails (runScript userDataLines).executed).map Prod.fst
        = (runScript userDataLines).executed) ∧
      (exitOk (execSeq fails (runScript userDataLines).executed)
        = !(fails "cat << EOF > /etc/systemd/system/uvicorn.service"))) := by
  refine ⟨by decide, by decide, fun fails => ⟨execSeq_fst fails _, rfl⟩⟩

/-- C3 (code evaluated at the failing input): the unit file the run
actually leaves at the well-known path does not parse back into any
ServiceUnitSpec — its content continues past the intended terminator with
the swallowed indented "EOF" line and the remaining script text, which is
not valid unit-file syntax — while the intended thirteen-line template
body (the file's own prefix) does parse back exactly to the source's
spec, so the round-trip property is what the bug breaks. -/
theorem C3_roundtrip_fails :
    (parseUnitFile unitFilePath unitFileLines = none) ∧
    (parseUnitFile unitFilePath (materializeUnit uvicornSpec) = some uvicornSpec) ∧
    (unitFileLines.take 13 = materializeUnit uvicornSpec) ∧
    (unitFileLines.contains (ind16 ++ "EOF") = true) := by
  refine ⟨by decide, by decide, by decide, by decide⟩

/-- C4 (counterexample): the run does not materialize the unit file by
write-temp-then-rename — the only written path is the final well-known
unit-file path itself, written by a single direct redirection, and no
executed command renames anything onto it. -/
theorem C4_counterexample :
    (atomicTempRenameB (runScript userDataLines) unitFilePath = false) ∧
    ((runScript userDataLines).files.map Prod.fst = [unitFilePath]) := by
  refine ⟨by decide, by decide⟩

/-- C4 (amended): the service-unit materialization writes the unit file
by one direct here-document redirection to the final well-known path —
the run's only file write targets that path, no executed command is a
rename, and the write is the run's last command — so nothing shields the
path from an interrupted write. -/
theorem C4_amended :
    ((runScript userDataLines).files.map Prod.fst = [unitFilePath]) ∧
    ((runScript userDataLines).executed.all (fun c => !(startsW "mv " c)) = true) ∧
    ((runScript userDataLines).executed.getLast? = some ("cat << EOF > " ++ unitFilePath)) := by
  refine ⟨by decide, by decide, by decide⟩

/-- C5 (confirmed): the repository-enablement command for the
database-client extras repository ("amazon-linux-extras enable
postgresql14") executes, the install of the package it unlocks ("yum
install -y postgresql") executes, and the enablement strictly precedes
the install in the run's command order. -/
theorem C5_enable_before_install :
    ((runScript userDataLines).executed.contains "amazon-linux-extras enable postgresql14" = true) ∧
    ((runScript userDataLines).executed.contains "yum install -y postgresql" = true) ∧
    (firstIdx "amazon-linux-extras enable postgresql14" (runScript userDataLines).executed
      < firstIdx "yum install -y postgresql" (runScript userDataLines).executed) := by
  refine ⟨by decide, by decide, by decide⟩

/-- C6 (code evaluated at the failing input): the supervisor-reload
command never executes at all — no executed command of the run begins
with "systemctl"; the "systemctl daemon-reload" text instead ends up
inside the written unit file (swallowed by the unterminated
here-document), and the run's last executed command is the unit-file
write itself, so nothing runs between the write and an enablement that
also never happens. -/
theorem C6_reload_never_executes :
    ((runScript userDataLines).executed.all (fun c => !(startsW "systemctl" c)) = true) ∧
    (unitFileLines.contains (ind16 ++ "systemctl daemon-reload") = true) ∧
    ((runScript userDataLines).executed.getLast? = some ("cat << EOF > " ++ unitFilePath)) := by
  refine ⟨by decide, by decide, by decide⟩

/-- C7 (confirmed): the provisioner issues no start-now command — no line
of the embedded script, however trimmed, is a "systemctl start" command,
and no executed command of the run is one — so nothing in the run starts
the application server process before the next host boot. -/
theorem C7_no_start_command :
    (userDataLines.all (fun l => !(startsW "systemctl start" (trimL l))) = true) ∧
    ((runScript userDataLines).executed.all (fun c => !(startsW "systemctl start" c)) = true) := by
  refine ⟨by decide, by decide⟩

/-- C8 (code evaluated at the failing input): the ExecStart executable of
the materialized unit is "/home/ec2-user/app/venv/bin/uvicorn", but the
install step installs exactly the packages postgresql, python3,
python3-pip, git and nginx1 — not uvicorn — the run's only file write is
the unit file itself, and no executed command so much as mentions the
/home/ec2-user tree, so no step of the run produces the executable the
unit invokes. -/
theorem C8_execstart_binary_not_provisioned :
    (execBinary uvicornSpec = "/home/ec2-user/app/venv/bin/uvicorn") ∧
    (installedPkgNames = ["postgresql", "python3", "python3-pip", "git", "nginx1"]) ∧
    (installedPkgNames.contains "uvicorn" = false) ∧
    ((runScript userDataLines).files.map Prod.fst = [unitFilePath]) ∧
    (unitFilePath ≠ execBinary uvicornSpec) ∧
    ((runScript userDataLines).executed.all (fun c => !(hasSub "/home/ec2-user" c)) = true) := by
  refine ⟨by decide, by decide, by decide, by decide, by decide, by decide⟩

/-- C9 (confirmed): the package-installation step is idempotent — on any
host state already containing every package the step names, re-running
the step succeeds and leaves the installed-package state unchanged, and
on any state whatsoever running the step twice equals running it once. -/
theorem C9_install_idempotent :
    (∀ st : List String, (∀ p, p ∈ installedPkgNames → p ∈ st) → installStepRun st = some st) ∧
    (∀ st : List String, installStep (installStep st) = installStep st) := by
  constructor
  · intro st h
    unfold installStepRun installStep
    exact congrArg some (foldl_installPkg_noop installedPkgNames st h)
  · intro st
    unfold installStep
    exact foldl_installPkg_noop installedPkgNames _
      (fun p hp => mem_foldl_installPkg installedPkgNames st p (Or.inr hp))

/-- C9 (witness): re-running the install step on a host state that
already holds exactly the step's packages succeeds and changes nothing. -/
theorem C9_install_idempotent_witness :
    installStepRun installedPkgNames = some installedPkgNames :=
  C9_install_idempotent.1 installedPkgNames (fun _ h => h)

/-- C10 (confirmed): every non-blank line of the embedded script carries
leading indentation and no line is exactly "EOF" (the delimiter appears
only in indented form), so the here-document never terminates at the
intended point: the written unit file is exactly all the script text
after the redirection line — the "systemctl daemon-reload" and "systemctl
enable uvicorn.service" lines among it — and no executed command of the
run is a systemctl command. -/
theorem C10_heredoc_swallows_script :
    (userDataLines.all (fun l => (l == "") || startsW " " l) = true) ∧
    (userDataLines.contains "EOF" = false) ∧
    (userDataLines.contains (ind16 ++ "EOF") = true) ∧
    (unitFileLines = userDataLines.drop 15) ∧
    (unitFileLines.contains (ind16 ++ "systemctl daemon-reload") = true) ∧
    (unitFileLines.contains (ind16 ++ "systemctl enable uvicorn.service") = true) ∧
    ((runScript userDataLines).executed.all (fun c => !(startsW "systemctl" c)) = true) := by
  refine ⟨by decide, by decide, by decide, by decide, by decide, by decide, by decide⟩
